import Mathlib

/-!
Shallow embedding of the SpamAssassin channel `.cf` generation pipeline
(`generate_cf.py` and `generate_channel_cf.py`): the database rows the
scripts read, the SQL queries they issue, the SHA-256 fingerprinting, the
external-process calls (linter, tar, gpg) and the per-channel orchestration
loop, modelled as pure functions producing an effect trace and an outcome.
-/

namespace SAChannel

/-! ## Data model: rows of the MySQL tables `channels`, `rules`, `channel_rules` -/

/-- A row of the `channels` table: `SELECT id, name, description, is_default`. -/
structure Channel where
  id : Nat
  name : String
  description : String
  is_default : Bool
  deriving Repr, DecidableEq

/-- A row of the `rules` table with the columns the scripts select, plus the
`active` and `status` columns their WHERE clauses filter on. -/
structure Rule where
  id : Nat
  rule_name : String
  rule : String
  score : Int
  sa_version : String
  author : String
  description : String
  rule_hash : String
  test_status : String
  active : Bool
  status : String
  deriving Repr, DecidableEq

/-- A row of the many-to-many binding table `channel_rules`. -/
structure ChannelRule where
  channel_id : Nat
  rule_id : Nat
  deriving Repr, DecidableEq

/-- The read-only database state both scripts query. -/
structure DB where
  channels : List Channel
  channel_rules : List ChannelRule
  rules : List Rule
  deriving Repr

/-! ## SHA-256 (model of Python's `hashlib.sha256(...).hexdigest()`)

Executable SHA-256 over byte lists, words as `Nat` reduced mod `2^32`. -/

def M32 : Nat := 4294967296

def rotr32 (n x : Nat) : Nat := ((x >>> n) ||| (x <<< (32 - n))) % M32

def smallSigma0 (x : Nat) : Nat := (rotr32 7 x) ^^^ (rotr32 18 x) ^^^ (x >>> 3)

def smallSigma1 (x : Nat) : Nat := (rotr32 17 x) ^^^ (rotr32 19 x) ^^^ (x >>> 10)

def bigSigma0 (x : Nat) : Nat := (rotr32 2 x) ^^^ (rotr32 13 x) ^^^ (rotr32 22 x)

def bigSigma1 (x : Nat) : Nat := (rotr32 6 x) ^^^ (rotr32 11 x) ^^^ (rotr32 25 x)

def chF (x y z : Nat) : Nat := (x &&& y) ^^^ ((x ^^^ 4294967295) &&& z)

def majF (x y z : Nat) : Nat := (x &&& y) ^^^ (x &&& z) ^^^ (y &&& z)

def sha_K : List Nat :=
  [1116352408, 1899447441, 3049323471, 3921009573, 961987163,
   1508970993, 2453635748, 2870763221, 3624381080, 310598401,
   607225278, 1426881987, 1925078388, 2162078206, 2614888103,
   3248222580, 3835390401, 4022224774, 264347078, 604807628,
   770255983, 1249150122, 1555081692, 1996064986, 2554220882,
   2821834349, 2952996808, 3210313671, 3336571891, 3584528711,
   113926993, 338241895, 666307205, 773529912, 1294757372,
   1396182291, 1695183700, 1986661051, 2177026350, 2456956037,
   2730485921, 2820302411, 3259730800, 3345764771, 3516065817,
   3600352804, 4094571909, 275423344, 430227734, 506948616,
   659060556, 883997877, 958139571, 1322822218, 1537002063,
   1747873779, 1955562222, 2024104815, 2227730452, 2361852424,
   2428436474, 2756734187, 3204031479, 3329325298]

def sha_H0 : List Nat :=
  [1779033703, 3144134277, 1013904242, 2773480762,
   1359893119, 2600822924, 528734635, 1541459225]

/-- Extend the 16 input words of a block to the 64-word message schedule. -/
def sha_schedule (block : List Nat) : Array Nat :=
  (List.range 48).foldl
    (fun w _ =>
      let t := w.size
      w.push ((smallSigma1 (w.getD (t - 2) 0) + w.getD (t - 7) 0 +
               smallSigma0 (w.getD (t - 15) 0) + w.getD (t - 16) 0) % M32))
    block.toArray

structure ShaState where
  a : Nat
  b : Nat
  c : Nat
  d : Nat
  e : Nat
  f : Nat
  g : Nat
  h : Nat
  deriving Repr

def compressRound (k w : Nat) (s : ShaState) : ShaState :=
  let t1 := (s.h + bigSigma1 s.e + chF s.e s.f s.g + k + w) % M32
  let t2 := (bigSigma0 s.a + majF s.a s.b s.c) % M32
  { a := (t1 + t2) % M32, b := s.a, c := s.b, d := s.c,
    e := (s.d + t1) % M32, f := s.e, g := s.f, h := s.g }

def processBlock (hs : List Nat) (block : List Nat) : List Nat :=
  let w := sha_schedule block
  let s0 : ShaState :=
    { a := hs.getD 0 0, b := hs.getD 1 0, c := hs.getD 2 0, d := hs.getD 3 0,
      e := hs.getD 4 0, f := hs.getD 5 0, g := hs.getD 6 0, h := hs.getD 7 0 }
  let sf := (List.range 64).foldl
    (fun s t => compressRound (sha_K.getD t 0) (w.getD t 0) s) s0
  [(hs.getD 0 0 + sf.a) % M32, (hs.getD 1 0 + sf.b) % M32,
   (hs.getD 2 0 + sf.c) % M32, (hs.getD 3 0 + sf.d) % M32,
   (hs.getD 4 0 + sf.e) % M32, (hs.getD 5 0 + sf.f) % M32,
   (hs.getD 6 0 + sf.g) % M32, (hs.getD 7 0 + sf.h) % M32]

/-- The `k` big-endian bytes of `n`. -/
def beBytes : Nat → Nat → List Nat
  | 0, _ => []
  | k + 1, n => beBytes k (n / 256) ++ [n % 256]

/-- SHA-256 padding: append `0x80`, zero bytes to 56 mod 64, then the
64-bit big-endian bit length. -/
def padMessage (msg : List Nat) : List Nat :=
  let l := msg.length
  let zeros := (64 - ((l + 9) % 64)) % 64
  msg ++ [0x80] ++ List.replicate zeros 0 ++ beBytes 8 (l * 8)

/-- Split a padded message into 64-byte blocks (structural on a fuel bound
that always suffices, since each step consumes 64 bytes). -/
def toBlocksAux : Nat → List Nat → List (List Nat)
  | 0, _ => []
  | _, [] => []
  | fuel + 1, x :: xs => (x :: xs).take 64 :: toBlocksAux fuel ((x :: xs).drop 64)

def toBlocks (l : List Nat) : List (List Nat) :=
  toBlocksAux l.length l

/-- Group a 64-byte block into 16 big-endian 32-bit words. -/
def toWords : List Nat → List Nat
  | b0 :: b1 :: b2 :: b3 :: rest =>
      (((b0 * 256 + b1) * 256 + b2) * 256 + b3) :: toWords rest
  | _ => []

/-- SHA-256 of a byte sequence, as the eight 32-bit hash words. -/
def sha256Bytes (msg : List Nat) : List Nat :=
  (toBlocks (padMessage msg)).foldl (fun hs b => processBlock hs (toWords b)) sha_H0

def hexDigit (n : Nat) : Char :=
  if n < 10 then Char.ofNat (48 + n) else Char.ofNat (87 + n)

def wordToHex (w : Nat) : List Char :=
  [hexDigit ((w >>> 28) &&& 15), hexDigit ((w >>> 24) &&& 15),
   hexDigit ((w >>> 20) &&& 15), hexDigit ((w >>> 16) &&& 15),
   hexDigit ((w >>> 12) &&& 15), hexDigit ((w >>> 8) &&& 15),
   hexDigit ((w >>> 4) &&& 15), hexDigit (w &&& 15)]

/-- Lowercase hex rendering of the hash words (Python `hexdigest()`). -/
def hexdigest (ws : List Nat) : String :=
  String.mk (ws.flatMap wordToHex)

/-- UTF-8 encoding of a code point (Python `str.encode("utf-8")`). -/
def utf8EncodeCp (c : Nat) : List Nat :=
  if c < 0x80 then [c]
  else if c < 0x800 then
    [0xC0 ||| (c >>> 6), 0x80 ||| (c &&& 0x3F)]
  else if c < 0x10000 then
    [0xE0 ||| (c >>> 12), 0x80 ||| ((c >>> 6) &&& 0x3F), 0x80 ||| (c &&& 0x3F)]
  else
    [0xF0 ||| (c >>> 18), 0x80 ||| ((c >>> 12) &&& 0x3F),
     0x80 ||| ((c >>> 6) &&& 0x3F), 0x80 ||| (c &&& 0x3F)]

def strToBytes (s : String) : List Nat :=
  s.data.flatMap (fun c => utf8EncodeCp c.toNat)

/-- Model of `generate_channel_cf.py` line 96: SHA-256 hexdigest of the UTF-8 bytes. -/
def compute_hash (content : String) : String :=
  hexdigest (sha256Bytes (strToBytes content))

/-- Model of `generate_cf.py` line 98: SHA-256 of the rule text as stored in the DB. -/
def compute_rule_hash (rule_text : String) : String :=
  hexdigest (sha256Bytes (strToBytes rule_text))

/-- The fingerprint check performed in `write_cf_file` (line 130): the stored
hash is compared to the recomputed hash by plain string equality. -/
def verify (rule_text stored : String) : Bool :=
  stored == compute_rule_hash rule_text

/-! ## Channel selection queries -/

/-- Model of `generate_cf.py fetch_channels` (lines 103-112): all channels, with an
`AND name = %(name)s` clause appended when `--channel` was given. -/
def fetch_channels (db : DB) (channelArg : Option String) : List Channel :=
  match channelArg with
  | none => db.channels
  | some n => db.channels.filter (fun c => c.name == n)

/-- Model of `generate_channel_cf.py SQL_CHANNELS` (lines 76-80):
`WHERE id = %s OR %s IS NULL` — all channels when the id is NULL, else the
channels with that id. -/
def sqlChannels (db : DB) (channel_id : Option Nat) : List Channel :=
  match channel_id with
  | none => db.channels
  | some cid => db.channels.filter (fun c => c.id == cid)

/-! ## Rule query: `SQL_RULES_FOR_CHANNEL` / `fetch_rules_for_channel`

Both scripts issue the same query: rules joined through `channel_rules` on
the channel id, restricted to `active = 1 AND status = 'production'`,
`ORDER BY r.rule_name`. -/

/-- The WHERE clause of the rule query for one channel. -/
def ruleEligible (db : DB) (channel_id : Nat) (r : Rule) : Bool :=
  db.channel_rules.any (fun cr => cr.channel_id == channel_id && cr.rule_id == r.id)
    && r.active && (r.status == "production")

/-- Lexicographic (code-point-wise) `≤` on character sequences: the model of
the database's binary collation for `ORDER BY`. -/
def lexLe : List Char → List Char → Bool
  | [], _ => true
  | _ :: _, [] => false
  | a :: as, b :: bs =>
    if a.toNat < b.toNat then true
    else if b.toNat < a.toNat then false
    else lexLe as bs

/-- Strict lexicographic `<` on character sequences. -/
def lexLt : List Char → List Char → Bool
  | _, [] => false
  | [], _ :: _ => true
  | a :: as, b :: bs =>
    if a.toNat < b.toNat then true
    else if b.toNat < a.toNat then false
    else lexLt as bs

theorem lexLe_cons (a b : Char) (as bs : List Char) :
    lexLe (a :: as) (b :: bs) = true ↔
      a.toNat < b.toNat ∨ (a.toNat = b.toNat ∧ lexLe as bs = true) := by
  rcases Nat.lt_trichotomy a.toNat b.toNat with h | h | h
  · simp [lexLe, h]
  · have h1 : ¬ a.toNat < b.toNat := by omega
    have h2 : ¬ b.toNat < a.toNat := by omega
    simp [lexLe, h, h1, h2]
  · have h1 : ¬ a.toNat < b.toNat := by omega
    have h2 : a.toNat ≠ b.toNat := by omega
    simp [lexLe, h, h1, h2]

theorem lexLt_cons (a b : Char) (as bs : List Char) :
    lexLt (a :: as) (b :: bs) = true ↔
      a.toNat < b.toNat ∨ (a.toNat = b.toNat ∧ lexLt as bs = true) := by
  rcases Nat.lt_trichotomy a.toNat b.toNat with h | h | h
  · simp [lexLt, h]
  · have h1 : ¬ a.toNat < b.toNat := by omega
    have h2 : ¬ b.toNat < a.toNat := by omega
    simp [lexLt, h, h1, h2]
  · have h1 : ¬ a.toNat < b.toNat := by omega
    have h2 : a.toNat ≠ b.toNat := by omega
    simp [lexLt, h, h1, h2]

theorem lexLe_total : ∀ a b : List Char, lexLe a b = true ∨ lexLe b a = true
  | [], _ => Or.inl rfl
  | _ :: _, [] => Or.inr rfl
  | a :: as, b :: bs => by
    rcases Nat.lt_trichotomy a.toNat b.toNat with h | h | h
    · exact Or.inl ((lexLe_cons a b as bs).mpr (Or.inl h))
    · rcases lexLe_total as bs with h2 | h2
      · exact Or.inl ((lexLe_cons a b as bs).mpr (Or.inr ⟨h, h2⟩))
      · exact Or.inr ((lexLe_cons b a bs as).mpr (Or.inr ⟨h.symm, h2⟩))
    · exact Or.inr ((lexLe_cons b a bs as).mpr (Or.inl h))

theorem lexLe_trans : ∀ a b c : List Char,
    lexLe a b = true → lexLe b c = true → lexLe a c = true
  | [], _, _, _, _ => rfl
  | _ :: _, [], _, h, _ => by cases h
  | _ :: _, _ :: _, [], _, h => by cases h
  | a :: as, b :: bs, c :: cs, h1, h2 => by
    rcases (lexLe_cons a b as bs).mp h1 with hab | ⟨hab, hab2⟩ <;>
      rcases (lexLe_cons b c bs cs).mp h2 with hbc | ⟨hbc, hbc2⟩
    · exact (lexLe_cons a c as cs).mpr (Or.inl (by omega))
    · exact (lexLe_cons a c as cs).mpr (Or.inl (by omega))
    · exact (lexLe_cons a c as cs).mpr (Or.inl (by omega))
    · exact (lexLe_cons a c as cs).mpr
        (Or.inr ⟨by omega, lexLe_trans as bs cs hab2 hbc2⟩)

theorem lexLe_ne_lexLt : ∀ a b : List Char,
    lexLe a b = true → a ≠ b → lexLt a b = true
  | [], [], _, hne => absurd rfl hne
  | [], _ :: _, _, _ => rfl
  | _ :: _, [], h, _ => by cases h
  | a :: as, b :: bs, h, hne => by
    rcases (lexLe_cons a b as bs).mp h with hab | ⟨hab, hab2⟩
    · exact (lexLt_cons a b as bs).mpr (Or.inl hab)
    · have hc : a = b := Char.ext (UInt32.ext hab)
      subst hc
      have hne2 : as ≠ bs := fun h2 => hne (by rw [h2])
      exact (lexLt_cons a a as bs).mpr (Or.inr ⟨rfl, lexLe_ne_lexLt as bs hab2 hne2⟩)

theorem lexLt_asymm : ∀ a b : List Char,
    lexLt a b = true → lexLt b a = true → False
  | [], [], h, _ => by cases h
  | [], _ :: _, _, h => by cases h
  | _ :: _, [], h, _ => by cases h
  | a :: as, b :: bs, h1, h2 => by
    rcases (lexLt_cons a b as bs).mp h1 with hab | ⟨hab, hab2⟩ <;>
      rcases (lexLt_cons b a bs as).mp h2 with hba | ⟨hba, hba2⟩
    · omega
    · omega
    · omega
    · exact lexLt_asymm as bs hab2 hba2

theorem lexLt_irrefl : ∀ a : List Char, lexLt a a = false
  | [] => rfl
  | a :: as => by
    unfold lexLt
    rw [if_neg (by omega), if_neg (by omega)]
    exact lexLt_irrefl as

/-- The `ORDER BY r.rule_name` comparison: by rule name. -/
def ruleNameLe (a b : Rule) : Prop := lexLe a.rule_name.data b.rule_name.data = true

instance : DecidableRel ruleNameLe :=
  fun a b => inferInstanceAs (Decidable (lexLe a.rule_name.data b.rule_name.data = true))

instance : IsTotal Rule ruleNameLe :=
  ⟨fun a b => lexLe_total a.rule_name.data b.rule_name.data⟩

instance : IsTrans Rule ruleNameLe :=
  ⟨fun _ _ _ => lexLe_trans _ _ _⟩

/-- Model of `fetch_rules_for_channel` (`generate_cf.py` 115-127) and the execution of
`SQL_RULES_FOR_CHANNEL` (`generate_channel_cf.py` 82-91, 167-168). -/
def fetch_rules_for_channel (db : DB) (channel_id : Nat) : List Rule :=
  List.insertionSort ruleNameLe (db.rules.filter (ruleEligible db channel_id))

/-! ## Effects and external processes -/

/-- Observable side effects of a run: log lines, file writes, and external
process invocations (`subprocess.run`). -/
inductive Effect
  | logInfo (msg : String)
  | logWarning (msg : String)
  | logError (msg : String)
  | fileWrite (path : String) (content : String)
  | spawn (cmd : List String)
  deriving Repr, DecidableEq

def Effect.isWrite : Effect → Bool
  | .fileWrite _ _ => true
  | _ => false

def Effect.isSpawn : Effect → Bool
  | .spawn _ => true
  | _ => false

def Effect.isWarning : Effect → Bool
  | .logWarning _ => true
  | _ => false

/-- What happened when `subprocess.run` was attempted for the linter:
either the spawn itself raised (binary missing, timeout), or the process ran
to completion with an exit status and captured stderr. -/
inductive LintOutcome
  | spawnError (msg : String)
  | exited (code : Nat) (stderr : String)
  deriving Repr, DecidableEq

/-- Model of `generate_channel_cf.py validate_cf_file` (lines 100-113): any exception
returns `False`; a non-zero exit status returns `False`; exit 0 returns
`True`. -/
def validate_cf_file (outcome : LintOutcome) : Bool :=
  match outcome with
  | .spawnError _ => false
  | .exited code _ => code == 0

/-- The linter command line built in `validate_cf_file` (line 101). -/
def lintCmd (sa_bin cf_path : String) : List String :=
  [sa_bin, "-D", "--lint", "--cf=" ++ cf_path]

/-- Effect trace of `validate_cf_file`: the spawn, then the log line chosen
by the outcome. -/
def validateEffects (sa_bin cf_path cf_name : String) (outcome : LintOutcome) :
    List Effect :=
  Effect.spawn (lintCmd sa_bin cf_path) ::
  match outcome with
  | .spawnError msg =>
      [Effect.logError ("Fehler beim Lint von " ++ cf_name ++ ": " ++ msg)]
  | .exited code stderr =>
      if code ≠ 0 then [Effect.logError ("Lint-Fehler in " ++ cf_name ++ ":\n" ++ stderr)]
      else [Effect.logInfo ("Lint OK: " ++ cf_name)]

/-! ## Render context -/

/-- The variables bound into the `channel.cf.j2` template. -/
structure Context where
  channel : Channel
  rules : List Rule
  generated_at : String
  deriving Repr, DecidableEq

/-- Model of `generate_cf.py` lines 147-151: the Jinja context. `generated_at` is
bound to the value of `cnx.get_server_info()` — the MySQL server version
string (the inline comment reads `# optional: UTC-Timestamp`). -/
def generate_cf_context (chan : Channel) (rules : List Rule) (server_info : String) :
    Context :=
  { channel := chan, rules := rules, generated_at := server_info }

/-- Model of `generate_channel_cf.py write_cf_file` lines 118-122: the render context;
`generated_at` is bound to `datetime.utcnow().strftime("%Y-%m-%d %H:%M:%SZ")`. -/
def write_cf_context (channel : Channel) (rules : List Rule) (now_utc : String) :
    Context :=
  { channel := channel, rules := rules, generated_at := now_utc }

/-! ## generate_channel_cf.py orchestration -/

/-- Exceptions a channel iteration can raise (all unhandled in `main`). -/
inductive PyError
  | templateError (msg : String)
  | osError (msg : String)
  | calledProcessError (cmd : List String) (returncode : Nat) (stderr : Option String)
  deriving Repr, DecidableEq

/-- Per-channel external-world behavior for one run of
`generate_channel_cf.py`: the wall clock, whether rendering or writing
raises, the linter outcome, and the exit statuses of `tar` and `gpg`. -/
structure ChanEnv where
  now_utc : String
  templateError : Option String
  writeError : Option String
  lintOutcome : LintOutcome
  tarExit : Nat
  gpgExit : Nat
  deriving Repr, DecidableEq

/-- The configuration keys `generate_channel_cf.py main` reads. -/
structure Config where
  output_dir : String
  spamassassin_bin : String
  gpg_key : String
  deriving Repr, DecidableEq

/-- Model of `generate_channel_cf.py write_cf_file` (lines 116-133): render the
template, write `<out_dir>/<name>.cf`, then log one warning per rule whose
stored hash differs from the recomputed hash; a template or write exception
propagates to the caller unhandled. -/
def write_cf_file (channel : Channel) (rules : List Rule) (out_dir : String)
    (render : Context → String) (env : ChanEnv) :
    List Effect × Except PyError String :=
  match env.templateError with
  | some e => ([], .error (.templateError e))
  | none =>
    let cf_content := render (write_cf_context channel rules env.now_utc)
    let cf_path := out_dir ++ "/" ++ channel.name ++ ".cf"
    match env.writeError with
    | some e => ([], .error (.osError e))
    | none =>
      (Effect.fileWrite cf_path cf_content ::
       Effect.logInfo ("CF-Datei geschrieben: " ++ cf_path) ::
       rules.filterMap (fun r =>
         if r.rule_hash ≠ compute_hash r.rule then
           some (Effect.logWarning ("Hash-Mismatch für Regel " ++ r.rule_name))
         else none),
       .ok cf_path)

/-- The `tar -cjf` command of line 183. -/
def tarCmd (tar_path out_dir cf_name : String) : List String :=
  ["tar", "-cjf", tar_path, "-C", out_dir, cf_name]

/-- The `gpg --armor --sign` command of line 188. -/
def gpgCmd (gpg_key sig_path tar_path : String) : List String :=
  ["gpg", "--armor", "--sign", "--default-key", gpg_key, "-o", sig_path, tar_path]

/-- Terminal outcome of one channel iteration that completed without an
unhandled exception. -/
inductive ChanOutcome
  | skippedEmpty
  | skippedLint
  | packaged
  deriving Repr, DecidableEq

instance {ε α : Type} [DecidableEq ε] [DecidableEq α] : DecidableEq (Except ε α) :=
  fun a b =>
  match a, b with
  | .error x, .error y =>
    match decEq x y with
    | isTrue h => isTrue (h ▸ rfl)
    | isFalse h => isFalse fun hc => h (by cases hc; rfl)
  | .error _, .ok _ => isFalse fun hc => by cases hc
  | .ok _, .error _ => isFalse fun hc => by cases hc
  | .ok x, .ok y =>
    match decEq x y with
    | isTrue h => isTrue (h ▸ rfl)
    | isFalse h => isFalse fun hc => h (by cases hc; rfl)

/-- One iteration of the channel loop in `generate_channel_cf.py main`
(lines 164-191): fetch rules; `continue` with a warning when empty; write the
`.cf` file; `continue` with an error log when the lint fails; run `tar` then
`gpg`, both with `check=True` and no output capture, so a non-zero exit
raises `CalledProcessError` (with `stderr = None`) out of the loop. -/
def processChannel (cfg : Config) (db : DB) (render : Context → String)
    (ch : Channel) (env : ChanEnv) : List Effect × Except PyError ChanOutcome :=
  let e0 := [Effect.logInfo ("Bearbeite Channel: " ++ ch.name)]
  let rules := fetch_rules_for_channel db ch.id
  if rules.isEmpty then
    (e0 ++ [Effect.logWarning ("Channel " ++ ch.name ++ " hat keine aktiven Regeln.")],
     .ok .skippedEmpty)
  else
    match write_cf_file ch rules cfg.output_dir render env with
    | (e1, .error err) => (e0 ++ e1, .error err)
    | (e1, .ok cf_path) =>
      let cf_name := ch.name ++ ".cf"
      let eLint := validateEffects cfg.spamassassin_bin cf_path cf_name env.lintOutcome
      if validate_cf_file env.lintOutcome = false then
        (e0 ++ e1 ++ eLint ++
         [Effect.logError ("Abbruch für Channel " ++ ch.name ++ " wegen Lint-Fehlern.")],
         .ok .skippedLint)
      else
        let tar_path := cfg.output_dir ++ "/" ++ ch.name ++ ".tar.bz2"
        let tCmd := tarCmd tar_path cfg.output_dir cf_name
        if env.tarExit ≠ 0 then
          (e0 ++ e1 ++ eLint ++ [Effect.spawn tCmd],
           .error (.calledProcessError tCmd env.tarExit none))
        else
          let sig_path := tar_path ++ ".asc"
          let gCmd := gpgCmd cfg.gpg_key sig_path tar_path
          if env.gpgExit ≠ 0 then
            (e0 ++ e1 ++ eLint ++ [Effect.spawn tCmd, Effect.spawn gCmd],
             .error (.calledProcessError gCmd env.gpgExit none))
          else
            (e0 ++ e1 ++ eLint ++
             [Effect.spawn tCmd, Effect.spawn gCmd,
              Effect.logInfo ("Archiv + Signatur: " ++ ch.name ++ ".tar.bz2 + .asc")],
             .ok .packaged)

/-- The `for ch in channels` loop: an unhandled exception in one iteration
propagates immediately, skipping all remaining channels; otherwise each
channel contributes one outcome. -/
def channelLoop (cfg : Config) (db : DB) (render : Context → String)
    (envOf : Channel → ChanEnv) :
    List Channel → List Effect × Except PyError (List (Channel × ChanOutcome))
  | [] => ([], .ok [])
  | ch :: rest =>
    match processChannel cfg db render ch (envOf ch) with
    | (e, .error err) => (e, .error err)
    | (e, .ok oc) =>
      match channelLoop cfg db render envOf rest with
      | (es, .error err) => (e ++ es, .error err)
      | (es, .ok rest') => (e ++ es, .ok ((ch, oc) :: rest'))

/-- Model of `generate_channel_cf.py main` plus the process exit status: `sys.exit(1)`
when no channel matches (lines 159-161); an unhandled exception terminates
the interpreter with exit status 1; otherwise the script finishes with exit
status 0 — no exit code ever reflects skipped or lint-failed channels. -/
def main (cfg : Config) (db : DB) (render : Context → String)
    (envOf : Channel → ChanEnv) (channel_id : Option Nat) : List Effect × Nat :=
  let channels := sqlChannels db channel_id
  if channels.isEmpty then
    ([Effect.logError "Kein Channel mit ID gefunden."], 1)
  else
    match channelLoop cfg db render envOf channels with
    | (es, .error _) => (es, 1)
    | (es, .ok _) => (es ++ [Effect.logInfo "Generierung abgeschlossen."], 0)

/-! ## generate_cf.py top-level flow -/

/-- The command-line arguments of `generate_cf.py`. -/
structure GenCfArgs where
  channel : Option String
  output_dir : String
  dry_run : Bool
  deriving Repr, DecidableEq

/-- The body of the `for chan in channels` loop of `generate_cf.py`
(lines 138-168): fetch and render always happen; with `--dry-run` the write
is replaced by a log line; otherwise the write is attempted and an exception
from it is caught and logged. -/
def generate_cf_channel_step (db : DB) (a : GenCfArgs) (render : Context → String)
    (server_info : String) (writeError : Channel → Option String) (chan : Channel) :
    List Effect :=
  let rules := fetch_rules_for_channel db chan.id
  let rendered := render (generate_cf_context chan rules server_info)
  let out_file := a.output_dir ++ "/" ++ chan.name ++ ".cf"
  [Effect.logInfo ("Generiere .cf für Channel " ++ chan.name),
   Effect.logInfo (toString rules.length ++ " aktive produktive Regeln")]
  ++ (if a.dry_run then
        [Effect.logInfo ("[DRY-RUN] " ++ out_file ++ " würde geschrieben werden")]
      else
        match writeError chan with
        | some e =>
            [Effect.logError ("Fehler beim Schreiben von " ++ out_file ++ ": " ++ e)]
        | none =>
            [Effect.fileWrite out_file rendered,
             Effect.logInfo (out_file ++ " geschrieben")])

/-- Model of `generate_cf.py` main flow (lines 133-175): when the selector matches no
channel, log a warning and `sys.exit(0)`; otherwise loop over the channels
(write errors are caught per channel) and finish with exit status 0. -/
def generate_cf_run (db : DB) (a : GenCfArgs) (render : Context → String)
    (server_info : String) (writeError : Channel → Option String) :
    List Effect × Nat :=
  let channels := fetch_channels db a.channel
  if channels.isEmpty then
    ([Effect.logWarning "Keine Channels gefunden"], 0)
  else
    (channels.flatMap (generate_cf_channel_step db a render server_info writeError)
      ++ [Effect.logInfo "Fertig."], 0)

/-! ## Helper lemmas -/

/-- Every effect emitted by `validate_cf_file` is either the linter spawn
itself or a log line. -/
theorem validateEffects_mem (sb cp cn : String) (o : LintOutcome) (e : Effect)
    (he : e ∈ validateEffects sb cp cn o) :
    e = Effect.spawn (lintCmd sb cp) ∨ (e.isSpawn = false ∧ e.isWrite = false) := by
  cases o with
  | spawnError m =>
    rcases List.mem_cons.mp he with h | h
    · exact Or.inl h
    · have h2 := List.mem_singleton.mp h
      subst h2; exact Or.inr ⟨rfl, rfl⟩
  | exited c s =>
    rcases List.mem_cons.mp he with h | h
    · exact Or.inl h
    · right
      have h' : e ∈ (if c ≠ 0 then [Effect.logError ("Lint-Fehler in " ++ cn ++ ":\n" ++ s)]
          else [Effect.logInfo ("Lint OK: " ++ cn)]) := h
      by_cases hc : c ≠ 0
      · rw [if_pos hc] at h'
        have h2 := List.mem_singleton.mp h'
        subst h2; exact ⟨rfl, rfl⟩
      · rw [if_neg hc] at h'
        have h2 := List.mem_singleton.mp h'
        subst h2; exact ⟨rfl, rfl⟩

/-- The per-rule fingerprint warnings emitted by `write_cf_file` are log
lines only: no writes, no spawns. -/
theorem hashWarnings_mem (rules : List Rule) (e : Effect)
    (he : e ∈ rules.filterMap (fun r =>
      if r.rule_hash ≠ compute_hash r.rule then
        some (Effect.logWarning ("Hash-Mismatch für Regel " ++ r.rule_name))
      else none)) :
    e.isSpawn = false ∧ e.isWrite = false := by
  rcases List.mem_filterMap.mp he with ⟨r, _, hr⟩
  by_cases h : r.rule_hash ≠ compute_hash r.rule
  · rw [if_pos h] at hr
    simp only [Option.some.injEq] at hr
    subst hr; exact ⟨rfl, rfl⟩
  · rw [if_neg h] at hr
    simp at hr

/-! ## Claims -/

/-- C5: fingerprint verification is a pure function of the rule body and the
stored fingerprint; it hashes the exact body bytes with SHA-256 and compares
by plain string equality, so verifying a body against its own freshly
computed hash always succeeds — with the identical hash helper of either
script. -/
theorem verify_roundtrip (body : String) :
    verify body (compute_rule_hash body) = true ∧
    verify body (compute_hash body) = true := by
  constructor <;> simp [verify, compute_hash, compute_rule_hash]

/-- C3 counterexample: a spawn failure of the linter (binary missing /
timeout) and a syntactic rejection by a successfully spawned linter
(non-zero exit) produce the very same return value `false`, so the caller of
`validate_cf_file` cannot distinguish "could not check" from "checked and
rejected" through the result. -/
theorem validator_kinds_collapse :
    validate_cf_file (LintOutcome.spawnError "No such file or directory") =
      validate_cf_file (LintOutcome.exited 1 "syntax error line 4") := rfl

/-- C3 amended: `validate_cf_file` returns a single boolean that is `true`
exactly when the linter was spawned successfully and exited with status 0;
both failure situations — spawn failure and non-zero exit — map to the same
value `false`, distinguishable only in the log output, not in the result. -/
theorem validate_cf_file_true_iff (o : LintOutcome) :
    validate_cf_file o = true ↔ ∃ s, o = LintOutcome.exited 0 s := by
  cases o with
  | spawnError m => simp [validate_cf_file]
  | exited c s =>
    simp only [validate_cf_file, beq_iff_eq]
    constructor
    · intro hc; exact ⟨s, by rw [hc]⟩
    · rintro ⟨s', hs⟩; cases hs; rfl

/-- C8: in `generate_cf.py` the template variable `generated_at` — the slot
the spec calls the generation timestamp — is bound to the value of
`cnx.get_server_info()`, i.e. the MySQL server version string (here
"8.0.36"), not to a timestamp; the code's own comment says
`# optional: UTC-Timestamp`. -/
theorem generated_at_is_server_info :
    (generate_cf_context ⟨1, "spam-core", "core rules", true⟩ [] "8.0.36").generated_at
      = "8.0.36" ∧
    (write_cf_context ⟨1, "spam-core", "core rules", true⟩ [] "2026-10-12 00:00:00Z").generated_at
      = "2026-10-12 00:00:00Z" := ⟨rfl, rfl⟩

/-- Fixture: one channel whose only bound rule is inactive, so its eligible
rule set is empty. -/
def ch4 : Channel := ⟨1, "empty-chan", "no active rules", false⟩

def db4 : DB :=
  ⟨[ch4], [⟨1, 7⟩],
   [⟨7, "R_X", "body /x/", 5, "3.4", "alice", "", "deadbeef", "ok", false, "production"⟩]⟩

def cfg4 : Config := ⟨"output", "spamassassin", "KEY"⟩

def env4 : ChanEnv := ⟨"2026-10-12 00:00:00Z", none, none, .exited 0 "", 0, 0⟩

def render4 : Context → String := fun ctx => ctx.channel.name

/-- C4 counterexample: in `generate_cf.py` a channel whose eligible rule set
is empty is neither skipped nor warned about — the rendered artifact file is
still written, and the whole trace contains no warning at all, only info
logs (`→ 0 aktive produktive Regeln`). -/
theorem empty_rules_artifact_written :
    fetch_rules_for_channel db4 ch4.id = [] ∧
    Effect.fileWrite "output/empty-chan.cf" (render4 (generate_cf_context ch4 [] "8.0.36")) ∈
      (generate_cf_run db4 ⟨none, "output", false⟩ render4 "8.0.36" (fun _ => none)).1 ∧
    (generate_cf_run db4 ⟨none, "output", false⟩ render4 "8.0.36" (fun _ => none)).1.all
      (fun e => !e.isWarning) = true := by
  decide

/-- C4 amended: the two scripts disagree on an empty eligible rule set. In
`generate_channel_cf.py` the channel produces no artifact and no
archive/signature files (no write, no spawn) and is reported with a
per-channel warning as `skippedEmpty`, an `Except.ok` outcome, not an error;
in `generate_cf.py` the empty set is not skipped: the loop logs only info
lines (`0 aktive produktive Regeln`) and still renders and writes the
artifact file for the channel. -/
theorem empty_rules_two_scripts (cfg : Config) (db : DB) (render : Context → String)
    (ch : Channel) (env : ChanEnv) (a : GenCfArgs) (db2 : DB) (rr : Context → String)
    (si : String) (we : Channel → Option String) (chan : Channel)
    (h : fetch_rules_for_channel db ch.id = [])
    (h2 : fetch_rules_for_channel db2 chan.id = [])
    (hdry : a.dry_run = false) (hwe : we chan = none) :
    (processChannel cfg db render ch env =
      ([Effect.logInfo ("Bearbeite Channel: " ++ ch.name),
        Effect.logWarning ("Channel " ++ ch.name ++ " hat keine aktiven Regeln.")],
       Except.ok ChanOutcome.skippedEmpty) ∧
     ∀ e ∈ (processChannel cfg db render ch env).1, e.isWrite = false ∧ e.isSpawn = false) ∧
    generate_cf_channel_step db2 a rr si we chan =
      [Effect.logInfo ("Generiere .cf für Channel " ++ chan.name),
       Effect.logInfo (toString (0 : Nat) ++ " aktive produktive Regeln"),
       Effect.fileWrite (a.output_dir ++ "/" ++ chan.name ++ ".cf")
         (rr (generate_cf_context chan [] si)),
       Effect.logInfo ((a.output_dir ++ "/" ++ chan.name ++ ".cf") ++ " geschrieben")] := by
  refine ⟨?_, ?_⟩
  · have hmain : processChannel cfg db render ch env =
        ([Effect.logInfo ("Bearbeite Channel: " ++ ch.name),
          Effect.logWarning ("Channel " ++ ch.name ++ " hat keine aktiven Regeln.")],
         Except.ok ChanOutcome.skippedEmpty) := by
      unfold processChannel
      rw [h]
      rfl
    refine ⟨hmain, ?_⟩
    rw [hmain]
    intro e he
    rcases List.mem_cons.mp he with h1 | h1
    · subst h1; exact ⟨rfl, rfl⟩
    · have hm := List.mem_singleton.mp h1
      subst hm; exact ⟨rfl, rfl⟩
  · unfold generate_cf_channel_step
    rw [h2, hdry, hwe]
    rfl

theorem empty_rules_two_scripts_witness :
    (fetch_rules_for_channel db4 ch4.id = [] ∧
     (⟨none, "output", false⟩ : GenCfArgs).dry_run = false) ∧
    ((processChannel cfg4 db4 render4 ch4 env4 =
        ([Effect.logInfo ("Bearbeite Channel: " ++ ch4.name),
          Effect.logWarning ("Channel " ++ ch4.name ++ " hat keine aktiven Regeln.")],
         Except.ok ChanOutcome.skippedEmpty) ∧
      ∀ e ∈ (processChannel cfg4 db4 render4 ch4 env4).1,
        e.isWrite = false ∧ e.isSpawn = false) ∧
     generate_cf_channel_step db4 ⟨none, "output", false⟩ render4 "8.0.36"
       (fun _ => none) ch4 =
       [Effect.logInfo ("Generiere .cf für Channel " ++ ch4.name),
        Effect.logInfo (toString (0 : Nat) ++ " aktive produktive Regeln"),
        Effect.fileWrite ((⟨none, "output", false⟩ : GenCfArgs).output_dir ++ "/" ++
          ch4.name ++ ".cf") (render4 (generate_cf_context ch4 [] "8.0.36")),
        Effect.logInfo (((⟨none, "output", false⟩ : GenCfArgs).output_dir ++ "/" ++
          ch4.name ++ ".cf") ++ " geschrieben")]) :=
  ⟨⟨by decide, rfl⟩,
   empty_rules_two_scripts cfg4 db4 render4 ch4 env4 ⟨none, "output", false⟩ db4 render4
     "8.0.36" (fun _ => none) ch4 (by decide) (by decide) rfl rfl⟩

/-- C10: when rendering and writing succeed but the lint fails, the `.cf`
file write is already in the trace before the linter spawn, the channel ends
as `skippedLint` with the file never removed (the code has no removal), and
every spawned process in the trace is the linter — no archiver or signer
runs, so the `.cf` exists without archive and signature. -/
theorem lint_failure_leaves_cf_file (cfg : Config) (db : DB) (render : Context → String)
    (ch : Channel) (env : ChanEnv)
    (hne : fetch_rules_for_channel db ch.id ≠ [])
    (ht : env.templateError = none) (hw : env.writeError = none)
    (hl : validate_cf_file env.lintOutcome = false) :
    (∃ pre post,
       processChannel cfg db render ch env =
         (pre ++ Effect.fileWrite (cfg.output_dir ++ "/" ++ ch.name ++ ".cf")
             (render (write_cf_context ch (fetch_rules_for_channel db ch.id) env.now_utc)) :: post,
          Except.ok ChanOutcome.skippedLint) ∧
       Effect.spawn (lintCmd cfg.spamassassin_bin (cfg.output_dir ++ "/" ++ ch.name ++ ".cf")) ∈ post) ∧
    ∀ e ∈ (processChannel cfg db render ch env).1, e.isSpawn = true →
      e = Effect.spawn (lintCmd cfg.spamassassin_bin (cfg.output_dir ++ "/" ++ ch.name ++ ".cf")) := by
  obtain ⟨r, rs, hrules⟩ : ∃ r rs, fetch_rules_for_channel db ch.id = r :: rs := by
    cases hfr : fetch_rules_for_channel db ch.id with
    | nil => exact absurd hfr hne
    | cons a l => exact ⟨a, l, rfl⟩
  rw [hrules]
  have hmain : processChannel cfg db render ch env =
      (Effect.logInfo ("Bearbeite Channel: " ++ ch.name) ::
       Effect.fileWrite (cfg.output_dir ++ "/" ++ ch.name ++ ".cf")
         (render (write_cf_context ch (r :: rs) env.now_utc)) ::
       Effect.logInfo ("CF-Datei geschrieben: " ++ (cfg.output_dir ++ "/" ++ ch.name ++ ".cf")) ::
       ((r :: rs).filterMap (fun rr =>
          if rr.rule_hash ≠ compute_hash rr.rule then
            some (Effect.logWarning ("Hash-Mismatch für Regel " ++ rr.rule_name))
          else none)
        ++ validateEffects cfg.spamassassin_bin (cfg.output_dir ++ "/" ++ ch.name ++ ".cf")
            (ch.name ++ ".cf") env.lintOutcome
        ++ [Effect.logError ("Abbruch für Channel " ++ ch.name ++ " wegen Lint-Fehlern.")]),
       Except.ok ChanOutcome.skippedLint) := by
    unfold processChannel write_cf_file
    rw [hrules, ht, hw, hl]
    simp
  constructor
  · refine ⟨[Effect.logInfo ("Bearbeite Channel: " ++ ch.name)],
      Effect.logInfo ("CF-Datei geschrieben: " ++ (cfg.output_dir ++ "/" ++ ch.name ++ ".cf")) ::
      ((r :: rs).filterMap (fun rr =>
         if rr.rule_hash ≠ compute_hash rr.rule then
           some (Effect.logWarning ("Hash-Mismatch für Regel " ++ rr.rule_name))
         else none)
       ++ validateEffects cfg.spamassassin_bin (cfg.output_dir ++ "/" ++ ch.name ++ ".cf")
           (ch.name ++ ".cf") env.lintOutcome
       ++ [Effect.logError ("Abbruch für Channel " ++ ch.name ++ " wegen Lint-Fehlern.")]),
      ?_, ?_⟩
    · rw [hmain]; rfl
    · simp [validateEffects]
  · intro e he hs
    rw [hmain] at he
    simp only [List.mem_cons, List.mem_append, List.not_mem_nil, or_false] at he
    rcases he with rfl | rfl | rfl | (hw2 | hv) | rfl
    · simp [Effect.isSpawn] at hs
    · simp [Effect.isSpawn] at hs
    · simp [Effect.isSpawn] at hs
    · rw [(hashWarnings_mem _ _ hw2).1] at hs; cases hs
    · rcases validateEffects_mem _ _ _ _ _ hv with h1 | h1
      · exact h1
      · rw [h1.1] at hs; cases hs
    · simp [Effect.isSpawn] at hs

/-- Fixture for the C10 witness: one channel with one active production
rule; the linter exits 2. -/
def ch10 : Channel := ⟨2, "spam-core", "core", true⟩

def db10 : DB :=
  ⟨[ch10], [⟨2, 11⟩],
   [⟨11, "A_RULE", "header A_RULE /a/", 3, "3.4", "bob", "", "ff", "ok", true, "production"⟩]⟩

def cfg10 : Config := ⟨"out", "spamassassin", "KEY"⟩

def env10 : ChanEnv :=
  ⟨"2026-10-12 00:00:00Z", none, none, .exited 2 "syntax error line 4", 0, 0⟩

def render10 : Context → String := fun ctx => ctx.generated_at

theorem lint_failure_leaves_cf_file_witness :
    (fetch_rules_for_channel db10 ch10.id ≠ [] ∧
     env10.templateError = none ∧ env10.writeError = none ∧
     validate_cf_file env10.lintOutcome = false) ∧
    ((∃ pre post,
       processChannel cfg10 db10 render10 ch10 env10 =
         (pre ++ Effect.fileWrite (cfg10.output_dir ++ "/" ++ ch10.name ++ ".cf")
             (render10 (write_cf_context ch10 (fetch_rules_for_channel db10 ch10.id) env10.now_utc)) :: post,
          Except.ok ChanOutcome.skippedLint) ∧
       Effect.spawn (lintCmd cfg10.spamassassin_bin (cfg10.output_dir ++ "/" ++ ch10.name ++ ".cf")) ∈ post) ∧
     ∀ e ∈ (processChannel cfg10 db10 render10 ch10 env10).1, e.isSpawn = true →
       e = Effect.spawn (lintCmd cfg10.spamassassin_bin (cfg10.output_dir ++ "/" ++ ch10.name ++ ".cf"))) :=
  ⟨⟨by decide, rfl, rfl, by decide⟩,
   lint_failure_leaves_cf_file cfg10 db10 render10 ch10 env10 (by decide) rfl rfl (by decide)⟩

/-- C9 amended: if the archive step fails (non-zero `tar` exit), signing is
indeed never attempted — no `gpg` spawn appears in the trace — but the
failure is an unhandled `CalledProcessError` that carries the exit status
with `stderr = None` (output is not captured) and terminates the whole loop:
the loop result over `ch :: rest` equals the result of `ch` alone, so the
remaining channels are not processed. -/
theorem tar_failure_fail_fast (cfg : Config) (db : DB) (render : Context → String)
    (envOf : Channel → ChanEnv) (ch : Channel) (rest : List Channel)
    (hne : fetch_rules_for_channel db ch.id ≠ [])
    (ht : (envOf ch).templateError = none) (hw : (envOf ch).writeError = none)
    (hl : validate_cf_file (envOf ch).lintOutcome = true)
    (htar : (envOf ch).tarExit ≠ 0) :
    channelLoop cfg db render envOf (ch :: rest) =
      ((processChannel cfg db render ch (envOf ch)).1,
       Except.error (PyError.calledProcessError
         (tarCmd (cfg.output_dir ++ "/" ++ ch.name ++ ".tar.bz2") cfg.output_dir (ch.name ++ ".cf"))
         (envOf ch).tarExit none)) ∧
    (processChannel cfg db render ch (envOf ch)).2 =
      Except.error (PyError.calledProcessError
        (tarCmd (cfg.output_dir ++ "/" ++ ch.name ++ ".tar.bz2") cfg.output_dir (ch.name ++ ".cf"))
        (envOf ch).tarExit none) ∧
    ∀ e ∈ (processChannel cfg db render ch (envOf ch)).1, ∀ cmd, e = Effect.spawn cmd →
      cmd = lintCmd cfg.spamassassin_bin (cfg.output_dir ++ "/" ++ ch.name ++ ".cf") ∨
      cmd = tarCmd (cfg.output_dir ++ "/" ++ ch.name ++ ".tar.bz2") cfg.output_dir (ch.name ++ ".cf") := by
  obtain ⟨r, rs, hrules⟩ : ∃ r rs, fetch_rules_for_channel db ch.id = r :: rs := by
    cases hfr : fetch_rules_for_channel db ch.id with
    | nil => exact absurd hfr hne
    | cons a l => exact ⟨a, l, rfl⟩
  have hmain : processChannel cfg db render ch (envOf ch) =
      (Effect.logInfo ("Bearbeite Channel: " ++ ch.name) ::
       Effect.fileWrite (cfg.output_dir ++ "/" ++ ch.name ++ ".cf")
         (render (write_cf_context ch (r :: rs) (envOf ch).now_utc)) ::
       Effect.logInfo ("CF-Datei geschrieben: " ++ (cfg.output_dir ++ "/" ++ ch.name ++ ".cf")) ::
       ((r :: rs).filterMap (fun rr =>
          if rr.rule_hash ≠ compute_hash rr.rule then
            some (Effect.logWarning ("Hash-Mismatch für Regel " ++ rr.rule_name))
          else none)
        ++ validateEffects cfg.spamassassin_bin (cfg.output_dir ++ "/" ++ ch.name ++ ".cf")
            (ch.name ++ ".cf") (envOf ch).lintOutcome
        ++ [Effect.spawn (tarCmd (cfg.output_dir ++ "/" ++ ch.name ++ ".tar.bz2")
             cfg.output_dir (ch.name ++ ".cf"))]),
       Except.error (PyError.calledProcessError
        (tarCmd (cfg.output_dir ++ "/" ++ ch.name ++ ".tar.bz2") cfg.output_dir (ch.name ++ ".cf"))
        (envOf ch).tarExit none)) := by
    unfold processChannel write_cf_file
    rw [hrules, ht, hw, hl]
    simp [htar]
  refine ⟨?_, ?_, ?_⟩
  · unfold channelLoop
    rw [hmain]
  · rw [hmain]
  · intro e he cmd heq
    subst heq
    rw [hmain] at he
    simp only [List.mem_cons, List.mem_append, List.not_mem_nil, or_false] at he
    rcases he with h1 | h1 | h1 | (h1 | h1) | h1
    · cases h1
    · cases h1
    · cases h1
    · have := (hashWarnings_mem _ _ h1).1
      simp [Effect.isSpawn] at this
    · rcases validateEffects_mem _ _ _ _ _ h1 with h2 | h2
      · left
        exact (Effect.spawn.injEq _ _).mp h2
      · have := h2.1
        simp [Effect.isSpawn] at this
    · right
      exact (Effect.spawn.injEq _ _).mp h1

/-- Fixtures for the run-level counterexamples: two channels, each bound to
one active production rule. -/
def chA9 : Channel := ⟨1, "alpha", "", false⟩

def chB9 : Channel := ⟨2, "beta", "", false⟩

def db9 : DB :=
  ⟨[chA9, chB9], [⟨1, 21⟩, ⟨2, 22⟩],
   [⟨21, "R_A", "a", 1, "", "", "", "h", "", true, "production"⟩,
    ⟨22, "R_B", "b", 1, "", "", "", "h", "", true, "production"⟩]⟩

def cfg9 : Config := ⟨"out", "sa", "KEY"⟩

/-- Environment where `tar` fails (exit 2) for channel id 1 only. -/
def envOf9 : Channel → ChanEnv := fun ch =>
  ⟨"ts", none, none, .exited 0 "", if ch.id = 1 then 2 else 0, 0⟩

def render9 : Context → String := fun _ => "cf"

set_option maxRecDepth 100000 in
/-- C9 counterexample: with `tar` failing on the first of two channels, the
packaging failure is not fatal only to that channel — the loop result over
both channels equals the result over the first alone (the second is never
processed), the error carries no captured stderr (`none`), though signing
was indeed not attempted (no `gpg` spawn). -/
theorem packaging_failure_kills_run :
    (channelLoop cfg9 db9 render9 envOf9 [chA9, chB9]).2 =
      Except.error (PyError.calledProcessError (tarCmd "out/alpha.tar.bz2" "out" "alpha.cf") 2 none) ∧
    channelLoop cfg9 db9 render9 envOf9 [chA9, chB9] =
      channelLoop cfg9 db9 render9 envOf9 [chA9] ∧
    Effect.spawn (gpgCmd "KEY" "out/alpha.tar.bz2.asc" "out/alpha.tar.bz2") ∉
      (channelLoop cfg9 db9 render9 envOf9 [chA9, chB9]).1 := by
  decide

theorem tar_failure_fail_fast_witness :
    (fetch_rules_for_channel db9 chA9.id ≠ [] ∧
     (envOf9 chA9).templateError = none ∧ (envOf9 chA9).writeError = none ∧
     validate_cf_file (envOf9 chA9).lintOutcome = true ∧ (envOf9 chA9).tarExit ≠ 0) ∧
    (channelLoop cfg9 db9 render9 envOf9 (chA9 :: [chB9]) =
       ((processChannel cfg9 db9 render9 chA9 (envOf9 chA9)).1,
        Except.error (PyError.calledProcessError
          (tarCmd (cfg9.output_dir ++ "/" ++ chA9.name ++ ".tar.bz2") cfg9.output_dir (chA9.name ++ ".cf"))
          (envOf9 chA9).tarExit none)) ∧
     (processChannel cfg9 db9 render9 chA9 (envOf9 chA9)).2 =
       Except.error (PyError.calledProcessError
         (tarCmd (cfg9.output_dir ++ "/" ++ chA9.name ++ ".tar.bz2") cfg9.output_dir (chA9.name ++ ".cf"))
         (envOf9 chA9).tarExit none) ∧
     ∀ e ∈ (processChannel cfg9 db9 render9 chA9 (envOf9 chA9)).1, ∀ cmd,
       e = Effect.spawn cmd →
       cmd = lintCmd cfg9.spamassassin_bin (cfg9.output_dir ++ "/" ++ chA9.name ++ ".cf") ∨
       cmd = tarCmd (cfg9.output_dir ++ "/" ++ chA9.name ++ ".tar.bz2") cfg9.output_dir (chA9.name ++ ".cf")) :=
  ⟨⟨by decide, rfl, rfl, by decide, by decide⟩,
   tar_failure_fail_fast cfg9 db9 render9 envOf9 chA9 [chB9]
     (by decide) rfl rfl (by decide) (by decide)⟩

/-- Environment where every channel renders and writes fine, `tar`/`gpg`
succeed, and the linter rejects channel id 1 only. -/
def envOfLint1 : Channel → ChanEnv := fun ch =>
  ⟨"ts", none, none,
   if ch.id = 1 then .exited 1 "syntax error line 4" else .exited 0 "", 0, 0⟩

/-- Environment where writing the `.cf` file raises for channel id 1 only. -/
def envOfWrite1 : Channel → ChanEnv := fun ch =>
  ⟨"ts", none, if ch.id = 1 then some "disk full" else none, .exited 0 "", 0, 0⟩

set_option maxRecDepth 100000 in
/-- C1 counterexample: a write error on the first of two channels is not
recorded as that channel's outcome — it aborts the run before the second
channel is even logged; and a run where a channel fails lint completes with
exit status 0, so the exit status does not reflect that failure. -/
theorem channel_error_not_isolated :
    ((channelLoop cfg9 db9 render9 envOfWrite1 [chA9, chB9]).2 =
        Except.error (PyError.osError "disk full") ∧
      Effect.logInfo ("Bearbeite Channel: " ++ chB9.name) ∉
        (channelLoop cfg9 db9 render9 envOfWrite1 [chA9, chB9]).1) ∧
    ((main cfg9 db9 render9 envOfLint1 none).2 = 0 ∧
      Effect.logError ("Abbruch für Channel " ++ chA9.name ++ " wegen Lint-Fehlern.") ∈
        (main cfg9 db9 render9 envOfLint1 none).1) := by
  decide

/-- C1 amended: the channel loop isolates only the two deliberate `continue`
paths — empty rule set and lint failure. When no channel's iteration raises
(no template, write, archive or signature error), the loop yields exactly
one outcome per selected channel regardless of lint results or empty rule
sets; a raising iteration instead aborts the rest (see the counterexample),
and a completed run always exits 0. -/
theorem loop_one_outcome_per_channel (cfg : Config) (db : DB) (render : Context → String)
    (envOf : Channel → ChanEnv) (chans : List Channel)
    (h : ∀ ch ∈ chans, (envOf ch).templateError = none ∧ (envOf ch).writeError = none ∧
         (envOf ch).tarExit = 0 ∧ (envOf ch).gpgExit = 0) :
    ∃ outs, (channelLoop cfg db render envOf chans).2 = Except.ok outs ∧
      outs.map Prod.fst = chans := by
  induction chans with
  | nil => exact ⟨[], rfl, rfl⟩
  | cons ch rest ih =>
    obtain ⟨ht, hw, htar, hgpg⟩ := h ch (List.mem_cons_self ch rest)
    obtain ⟨outs, houts, hmap⟩ := ih (fun c hc => h c (List.mem_cons_of_mem ch hc))
    have hstep : ∃ oc, (processChannel cfg db render ch (envOf ch)).2 = Except.ok oc := by
      by_cases hfr : (fetch_rules_for_channel db ch.id).isEmpty = true
      · exact ⟨ChanOutcome.skippedEmpty, by simp [processChannel, hfr]⟩
      · by_cases hv : validate_cf_file (envOf ch).lintOutcome = false
        · exact ⟨ChanOutcome.skippedLint,
            by simp [processChannel, write_cf_file, hfr, ht, hw, hv]⟩
        · exact ⟨ChanOutcome.packaged,
            by simp [processChannel, write_cf_file, hfr, ht, hw, hv, htar, hgpg]⟩
    obtain ⟨oc, hoc⟩ := hstep
    cases hp : processChannel cfg db render ch (envOf ch) with
    | mk e1 r1 =>
      rw [hp] at hoc
      have hr1 : r1 = Except.ok oc := hoc
      subst hr1
      cases hq : channelLoop cfg db render envOf rest with
      | mk e2 r2 =>
        rw [hq] at houts
        have hr2 : r2 = Except.ok outs := houts
        subst hr2
        refine ⟨(ch, oc) :: outs, ?_, by simp [hmap]⟩
        show (channelLoop cfg db render envOf (ch :: rest)).2 = _
        unfold channelLoop
        rw [hp, hq]

theorem loop_one_outcome_per_channel_witness :
    (∀ ch ∈ [chA9, chB9], (envOfLint1 ch).templateError = none ∧
       (envOfLint1 ch).writeError = none ∧ (envOfLint1 ch).tarExit = 0 ∧
       (envOfLint1 ch).gpgExit = 0) ∧
    (∃ outs, (channelLoop cfg9 db9 render9 envOfLint1 [chA9, chB9]).2 = Except.ok outs ∧
       outs.map Prod.fst = [chA9, chB9]) :=
  ⟨by decide,
   loop_one_outcome_per_channel cfg9 db9 render9 envOfLint1 [chA9, chB9] (by decide)⟩

/-- C2 counterexample: in `generate_cf.py` a channel-name selector that
matches zero channels does not fail the run: it logs a warning and the
process exits with status 0. -/
theorem name_selector_no_match_exits_zero :
    fetch_channels db9 (some "nope") = [] ∧
    (generate_cf_run db9 ⟨some "nope", "output", false⟩ render9 "8.0.36" (fun _ => none)).2 = 0 := by
  decide

/-- C2 amended: the two scripts disagree on the empty selector. In
`generate_channel_cf.py` an id selector matching zero channels logs an error
and exits 1 with no channel processed; in `generate_cf.py` a name selector
matching zero channels logs a warning and exits 0. -/
theorem no_match_exit_codes (cfg : Config) (db db2 : DB) (render rr : Context → String)
    (envOf : Channel → ChanEnv) (cid : Option Nat) (a : GenCfArgs)
    (si : String) (we : Channel → Option String)
    (h1 : sqlChannels db cid = []) (h2 : fetch_channels db2 a.channel = []) :
    main cfg db render envOf cid = ([Effect.logError "Kein Channel mit ID gefunden."], 1) ∧
    generate_cf_run db2 a rr si we = ([Effect.logWarning "Keine Channels gefunden"], 0) := by
  constructor
  · unfold main
    rw [h1]
    rfl
  · unfold generate_cf_run
    rw [h2]
    rfl

theorem no_match_exit_codes_witness :
    (sqlChannels db9 (some 99) = [] ∧ fetch_channels db9 (some "nope") = []) ∧
    (main cfg9 db9 render9 envOfLint1 (some 99) =
       ([Effect.logError "Kein Channel mit ID gefunden."], 1) ∧
     generate_cf_run db9 ⟨some "nope", "output", false⟩ render9 "8.0.36" (fun _ => none) =
       ([Effect.logWarning "Keine Channels gefunden"], 0)) :=
  ⟨⟨by decide, by decide⟩,
   no_match_exit_codes cfg9 db9 db9 render9 render9 envOfLint1 (some 99)
     ⟨some "nope", "output", false⟩ "8.0.36" (fun _ => none) (by decide) (by decide)⟩

/-- C7: with the dry-run flag set, a `generate_cf.py` run emits no file
write and no process spawn at all — only log lines, among them, for every
selected channel, the intended output filename — and exits 0. -/
theorem dry_run_writes_nothing (db : DB) (a : GenCfArgs) (render : Context → String)
    (si : String) (we : Channel → Option String)
    (h : a.dry_run = true) :
    (∀ e ∈ (generate_cf_run db a render si we).1, e.isWrite = false ∧ e.isSpawn = false) ∧
    (∀ ch ∈ fetch_channels db a.channel,
       Effect.logInfo ("[DRY-RUN] " ++ (a.output_dir ++ "/" ++ ch.name ++ ".cf") ++
         " würde geschrieben werden") ∈ (generate_cf_run db a render si we).1) ∧
    (generate_cf_run db a render si we).2 = 0 := by
  by_cases hc : (fetch_channels db a.channel).isEmpty = true
  · have hrun : generate_cf_run db a render si we =
        ([Effect.logWarning "Keine Channels gefunden"], 0) := by
      unfold generate_cf_run
      rw [if_pos hc]
    refine ⟨?_, ?_, by rw [hrun]⟩
    · intro e he
      rw [hrun] at he
      have h2 := List.mem_singleton.mp he
      subst h2; exact ⟨rfl, rfl⟩
    · intro ch hch
      rw [List.isEmpty_iff.mp hc] at hch
      cases hch
  · have hrun : generate_cf_run db a render si we =
        ((fetch_channels db a.channel).flatMap
           (generate_cf_channel_step db a render si we) ++ [Effect.logInfo "Fertig."], 0) := by
      unfold generate_cf_run
      rw [if_neg hc]
    have hstep : ∀ ch : Channel, generate_cf_channel_step db a render si we ch =
        [Effect.logInfo ("Generiere .cf für Channel " ++ ch.name),
         Effect.logInfo (toString (fetch_rules_for_channel db ch.id).length ++
           " aktive produktive Regeln"),
         Effect.logInfo ("[DRY-RUN] " ++ (a.output_dir ++ "/" ++ ch.name ++ ".cf") ++
           " würde geschrieben werden")] := by
      intro ch
      unfold generate_cf_channel_step
      rw [h]
      rfl
    refine ⟨?_, ?_, by rw [hrun]⟩
    · intro e he
      rw [hrun] at he
      rcases List.mem_append.mp he with he | he
      · rcases List.mem_flatMap.mp he with ⟨ch, _, hme⟩
        rw [hstep ch] at hme
        rcases List.mem_cons.mp hme with h1 | h1
        · subst h1; exact ⟨rfl, rfl⟩
        · rcases List.mem_cons.mp h1 with h2 | h2
          · subst h2; exact ⟨rfl, rfl⟩
          · have h3 := List.mem_singleton.mp h2
            subst h3; exact ⟨rfl, rfl⟩
      · have h3 := List.mem_singleton.mp he
        subst h3; exact ⟨rfl, rfl⟩
    · intro ch hch
      rw [hrun]
      refine List.mem_append_left _ (List.mem_flatMap.mpr ⟨ch, hch, ?_⟩)
      rw [hstep ch]
      exact List.mem_cons_of_mem _ (List.mem_cons_of_mem _ (List.mem_singleton.mpr rfl))

theorem dry_run_writes_nothing_witness :
    (⟨none, "out", true⟩ : GenCfArgs).dry_run = true ∧
    ((∀ e ∈ (generate_cf_run db9 ⟨none, "out", true⟩ render9 "8.0.36" (fun _ => none)).1,
        e.isWrite = false ∧ e.isSpawn = false) ∧
     (∀ ch ∈ fetch_channels db9 (⟨none, "out", true⟩ : GenCfArgs).channel,
        Effect.logInfo ("[DRY-RUN] " ++ (((⟨none, "out", true⟩ : GenCfArgs)).output_dir ++
          "/" ++ ch.name ++ ".cf") ++ " würde geschrieben werden") ∈
          (generate_cf_run db9 ⟨none, "out", true⟩ render9 "8.0.36" (fun _ => none)).1) ∧
     (generate_cf_run db9 ⟨none, "out", true⟩ render9 "8.0.36" (fun _ => none)).2 = 0) :=
  ⟨rfl, dry_run_writes_nothing db9 ⟨none, "out", true⟩ render9 "8.0.36" (fun _ => none) rfl⟩

/-- Executable check that the rule names in a list are pairwise distinct. -/
def distinctNames : List Rule → Bool
  | [] => true
  | r :: rs => rs.all (fun x => r.rule_name != x.rule_name) && distinctNames rs

theorem strData_inj {a b : String} (h : a.data = b.data) : a = b := by
  cases a with
  | mk da =>
    cases b with
    | mk db =>
      have h2 : da = db := h
      rw [h2]

theorem distinctNames_pairwise : ∀ l : List Rule, distinctNames l = true →
    l.Pairwise (fun a b => a.rule_name ≠ b.rule_name)
  | [], _ => List.Pairwise.nil
  | r :: rs, h => by
    rw [distinctNames, Bool.and_eq_true] at h
    refine List.Pairwise.cons ?_ (distinctNames_pairwise rs h.2)
    intro x hx
    have hb := (List.all_eq_true.mp h.1) x hx
    simpa using hb

/-- C6: the materialized rule set of a channel contains exactly the rules
bound to that channel through `channel_rules` with `active = 1` and
`status = 'production'`, and — given pairwise distinct rule names, which the
data model declares unique — rule A precedes rule B in the result iff A's
name sorts strictly before B's (lexicographic `ORDER BY r.rule_name`). -/
theorem rule_set_filter_and_order (db : DB) (cid : Nat)
    (hnd : distinctNames (fetch_rules_for_channel db cid) = true) :
    (∀ r ∈ fetch_rules_for_channel db cid,
        r.active = true ∧ r.status = "production" ∧
        ∃ cr ∈ db.channel_rules, cr.channel_id = cid ∧ cr.rule_id = r.id) ∧
    (∀ r : Rule, r ∈ db.rules → ruleEligible db cid r = true →
        r ∈ fetch_rules_for_channel db cid) ∧
    (∀ i j : Fin (fetch_rules_for_channel db cid).length,
        (i : Nat) < (j : Nat) ↔
        lexLt ((fetch_rules_for_channel db cid).get i).rule_name.data
          ((fetch_rules_for_channel db cid).get j).rule_name.data = true) := by
  have hsort : List.Sorted ruleNameLe (fetch_rules_for_channel db cid) :=
    List.sorted_insertionSort ruleNameLe _
  have hne : (fetch_rules_for_channel db cid).Pairwise
      (fun a b => a.rule_name ≠ b.rule_name) :=
    distinctNames_pairwise _ hnd
  have hlt : (fetch_rules_for_channel db cid).Pairwise
      (fun a b => lexLt a.rule_name.data b.rule_name.data = true) :=
    (List.Pairwise.and hsort hne).imp
      (fun h => lexLe_ne_lexLt _ _ h.1 (fun hd => h.2 (strData_inj hd)))
  refine ⟨?_, ?_, ?_⟩
  · intro r hr
    have hf : r ∈ (db.rules.filter (ruleEligible db cid)) :=
      (List.mem_insertionSort ruleNameLe).mp hr
    have hel : ruleEligible db cid r = true := (List.mem_filter.mp hf).2
    unfold ruleEligible at hel
    rw [Bool.and_eq_true, Bool.and_eq_true] at hel
    obtain ⟨⟨hany, hact⟩, hst⟩ := hel
    refine ⟨hact, by simpa using hst, ?_⟩
    obtain ⟨cr, hcr, hcrp⟩ := List.any_eq_true.mp hany
    rw [Bool.and_eq_true, beq_iff_eq, beq_iff_eq] at hcrp
    exact ⟨cr, hcr, hcrp⟩
  · intro r hr hel
    exact (List.mem_insertionSort ruleNameLe).mpr
      (List.mem_filter.mpr ⟨hr, hel⟩)
  · intro i j
    constructor
    · intro hij
      exact List.pairwise_iff_get.mp hlt i j hij
    · intro hname
      rcases Nat.lt_trichotomy (i : Nat) (j : Nat) with h | h | h
      · exact h
      · rw [Fin.ext h, lexLt_irrefl] at hname
        cases hname
      · exact absurd hname
          (fun hc => lexLt_asymm _ _ hc (List.pairwise_iff_get.mp hlt j i h))

/-- Fixture for the C6 witness: rules bound to channel 1 with names out of
order, plus an inactive rule, a non-production rule, and an unbound rule. -/
def db6 : DB :=
  ⟨[⟨1, "spam-core", "", true⟩],
   [⟨1, 31⟩, ⟨1, 32⟩, ⟨1, 33⟩, ⟨1, 34⟩],
   [⟨31, "B_RULE", "b", 1, "", "", "", "h", "", true, "production"⟩,
    ⟨32, "A_RULE", "a", 1, "", "", "", "h", "", true, "production"⟩,
    ⟨33, "C_RULE", "c", 1, "", "", "", "h", "", false, "production"⟩,
    ⟨34, "D_RULE", "d", 1, "", "", "", "h", "", true, "testing"⟩,
    ⟨35, "E_RULE", "e", 1, "", "", "", "h", "", true, "production"⟩]⟩

theorem rule_set_filter_and_order_witness :
    distinctNames (fetch_rules_for_channel db6 1) = true ∧
    ((∀ r ∈ fetch_rules_for_channel db6 1,
        r.active = true ∧ r.status = "production" ∧
        ∃ cr ∈ db6.channel_rules, cr.channel_id = 1 ∧ cr.rule_id = r.id) ∧
     (∀ r : Rule, r ∈ db6.rules → ruleEligible db6 1 r = true →
        r ∈ fetch_rules_for_channel db6 1) ∧
     (∀ i j : Fin (fetch_rules_for_channel db6 1).length,
        (i : Nat) < (j : Nat) ↔
        lexLt ((fetch_rules_for_channel db6 1).get i).rule_name.data
          ((fetch_rules_for_channel db6 1).get j).rule_name.data = true)) :=
  ⟨by decide, rule_set_filter_and_order db6 1 (by decide)⟩

end SAChannel
